import Mathlib

/-!
Verification development for the MCP SQLite server (`mcpsqlite.py`).

The repository's only non-trivial logic is the `call_tool` dispatcher: it maps
an (operation name, argument bag) pair to a textual reply, executing SQL
against a single configured database file.  We embed that dispatcher as a pure
Lean function, parameterised over an abstract model of the external sqlite3
engine.  Every engine interaction (connect, execute, commit, close) is recorded
in an event trace so that connection-lifecycle properties can be stated.
-/

/-- Python runtime values as handed back by the sqlite3 driver
(`None`, integers, strings).  These are the cell values of fetched rows. -/
inductive PyVal where
  | null
  | int (n : Int)
  | text (s : String)
deriving DecidableEq, Repr

/-- Python `str(v)`: `None` prints as `"None"`, integers in decimal,
strings as themselves. -/
def pyStr : PyVal → String
  | PyVal.null => "None"
  | PyVal.int n => toString n
  | PyVal.text s => s

/-- Python truthiness of a value (`if pk:` / `if notnull:` in the source):
`None`, `0` and `""` are falsy. -/
def pyTruthy : PyVal → Bool
  | PyVal.null => false
  | PyVal.int n => decide (n ≠ 0)
  | PyVal.text s => decide (s ≠ "")

/-- `mcp.types.TextContent(type="text", text=...)`. -/
structure TextContent where
  type : String
  text : String
deriving DecidableEq, Repr

/-- The two exception classes distinguished by the source's `except` clauses:
`sqlite3.Error` and any other `Exception`. -/
inductive PyError where
  | sqlite (msg : String)
  | other (msg : String)
deriving DecidableEq, Repr

/-- Snapshot of a cursor right after `cursor.execute(q)`:
what `fetchall()`, `description` and `rowcount` would report. -/
structure CursorResult where
  rows : List (List PyVal)
  description : List String
  rowcount : Int
deriving DecidableEq, Repr

/-- Engine interactions performed by one `call_tool` invocation, in order. -/
inductive Event where
  | connect
  | execute (q : String)
  | commit
  | close
deriving DecidableEq, Repr

/-- Abstract model of the external sqlite3 engine collaborator.  `σ` is the
connection state.  `connect` models `sqlite3.connect(DB_PATH)`; `execute q s`
models `cursor.execute(q)` on connection state `s`, returning the new state and
the cursor snapshot, or raising. -/
structure EngineModel (σ : Type) where
  connect : Except PyError σ
  execute : String → σ → Except PyError (σ × CursorResult)

/-- The configured database path (module constant `DB_PATH`). -/
def DB_PATH : String := "C:\\Users\\your-user-name\\Databases\\sqlite-database.db"

/-- The catalog query issued by the `list_tables` branch. -/
def catalogQuery : String := "SELECT name FROM sqlite_master WHERE type='table'"

/-- Python `not x` applied to `arguments.get(key)`: true when the key is
absent (`None`) or maps to the empty string. -/
def argMissing : Option String → Bool
  | Option.none => true
  | Option.some s => decide (s = "")

/-- Outcome of the dispatch body inside the `try` block: an early `return`
before `conn.close()`, a normal fall-through to `conn.close()` carrying the
result text, or a raised exception. -/
inductive BodyOut where
  | early (reply : String)
  | done (result : String)
  | err (e : PyError)
deriving DecidableEq, Repr

/-- `[table[0] for table in tables]`: the first element of each fetched row;
an empty tuple would raise an `IndexError` (a non-sqlite exception). -/
def firstElems : List (List PyVal) → Except PyError (List PyVal)
  | [] => Except.ok []
  | [] :: _ => Except.error (PyError.other "tuple index out of range")
  | (x :: _) :: rest => (firstElems rest).map (fun l => x :: l)

/-- The `list_tables` branch: query the catalog, then render a header line
plus one `- <name>` line per table, joined with newlines. -/
def listTablesBody {σ : Type} (eng : EngineModel σ) (conn : σ) :
    BodyOut × List Event :=
  match eng.execute catalogQuery conn with
  | Except.error e => (BodyOut.err e, [Event.execute catalogQuery])
  | Except.ok (_, cur) =>
    match firstElems cur.rows with
    | Except.error e => (BodyOut.err e, [Event.execute catalogQuery])
    | Except.ok table_names =>
      (BodyOut.done ("Tables in database:\n" ++
          String.intercalate "\n" (table_names.map (fun n => "- " ++ pyStr n))),
       [Event.execute catalogQuery])

/-- One iteration of the `describe_table` rendering loop: unpack the six
`PRAGMA table_info` fields and append the column's line.  The primary-key
suffix is appended first, then not-null, then default, exactly as in the
source. -/
def renderColumn (col : List PyVal) : Except PyError String :=
  match col with
  | [_cid, nm, ty, nn, df, pk] =>
    let r := "- " ++ pyStr nm ++ ": " ++ pyStr ty
    let r := if pyTruthy pk then r ++ " (PRIMARY KEY)" else r
    let r := if pyTruthy nn then r ++ " NOT NULL" else r
    let r := if df = PyVal.null then r else r ++ " DEFAULT " ++ pyStr df
    Except.ok (r ++ "\n")
  | _ => Except.error (PyError.other "not enough values to unpack")

/-- The `for col in columns:` accumulation loop of `describe_table`. -/
def describeColumns (acc : String) : List (List PyVal) → Except PyError String
  | [] => Except.ok acc
  | col :: rest =>
    match renderColumn col with
    | Except.error e => Except.error e
    | Except.ok line => describeColumns (acc ++ line) rest

/-- The `describe_table` branch after argument validation: run the
unescaped-interpolation `PRAGMA table_info(<t>)`, report not-found on zero
columns, otherwise render the schema lines. -/
def describeTableBody {σ : Type} (eng : EngineModel σ) (conn : σ)
    (table_name : String) : BodyOut × List Event :=
  let q := "PRAGMA table_info(" ++ table_name ++ ")"
  match eng.execute q conn with
  | Except.error e => (BodyOut.err e, [Event.execute q])
  | Except.ok (_, cur) =>
    if cur.rows.isEmpty then
      (BodyOut.done ("Table '" ++ table_name ++ "' not found"), [Event.execute q])
    else
      match describeColumns ("Schema for table '" ++ table_name ++ "':\n") cur.rows with
      | Except.error e => (BodyOut.err e, [Event.execute q])
      | Except.ok r => (BodyOut.done r, [Event.execute q])

/-- The whitespace set removed by Python's `str.strip()`. -/
def pyIsSpace (c : Char) : Bool :=
  c = ' ' || c = '\t' || c = '\n' || c = '\x0d' || c = '\x0b' || c = '\x0c'

/-- Python `str.strip()`: drop whitespace from both ends. -/
def pyStrip (s : String) : String :=
  String.mk (((s.data.dropWhile pyIsSpace).reverse.dropWhile pyIsSpace).reverse)

/-- Python `str.lower()` (character-wise case folding). -/
def pyLower (s : String) : String := String.mk (s.data.map Char.toLower)

/-- Character-list prefix test backing `str.startswith`. -/
def listStartsWith : List Char → List Char → Bool
  | _, [] => true
  | [], _ :: _ => false
  | c :: cs, p :: ps => c = p && listStartsWith cs ps

/-- Python `s.startswith(p)`. -/
def pyStartsWith (s p : String) : Bool := listStartsWith s.data p.data

/-- `query.strip().lower().startswith(('select', 'pragma'))`. -/
def isReadQuery (query : String) : Bool :=
  let s := pyLower (pyStrip query)
  pyStartsWith s "select" || pyStartsWith s "pragma"

/-- Grid rendering of a read query's result: a `Query results:` line, the
column names joined by `" | "`, a dash separator as long as that joined
header, then one newline-terminated line per row with stringified cells. -/
def readGrid (columns : List String) (rows : List (List PyVal)) : String :=
  "Query results:\n" ++ String.intercalate " | " columns ++ "\n" ++
    String.mk (List.replicate (String.intercalate " | " columns).length '-') ++ "\n" ++
    String.join (rows.map (fun row =>
      String.intercalate " | " (row.map pyStr) ++ "\n"))

/-- The `run_query` branch after argument validation: execute first, then
classify; read queries render a grid or the no-results message, other
statements commit and report the affected-row count. -/
def runQueryBody {σ : Type} (eng : EngineModel σ) (conn : σ) (query : String) :
    BodyOut × List Event :=
  match eng.execute query conn with
  | Except.error e => (BodyOut.err e, [Event.execute query])
  | Except.ok (_, cur) =>
    if isReadQuery query then
      if cur.rows.isEmpty then
        (BodyOut.done "Query executed successfully. No results returned.",
         [Event.execute query])
      else
        (BodyOut.done (readGrid cur.description cur.rows), [Event.execute query])
    else
      (BodyOut.done ("Query executed successfully. " ++ toString cur.rowcount ++
          " rows affected."),
       [Event.execute query, Event.commit])

/-- The dispatch on the tool name inside the `try` block, including the
argument-presence checks whose failures `return` before `conn.close()`. -/
def dispatchBody {σ : Type} (eng : EngineModel σ) (conn : σ) (name : String)
    (arguments : List (String × String)) : BodyOut × List Event :=
  if name = "list_tables" then
    listTablesBody eng conn
  else if name = "describe_table" then
    let table_name := List.lookup "table_name" arguments
    if argMissing table_name then
      (BodyOut.early "Error: table_name is required", [])
    else
      describeTableBody eng conn (table_name.getD "")
  else if name = "run_query" then
    let query := List.lookup "query" arguments
    if argMissing query then
      (BodyOut.early "Error: query is required", [])
    else
      runQueryBody eng conn (query.getD "")
  else
    (BodyOut.done ("Unknown tool: " ++ name), [])

/-- The two `except` clauses: `sqlite3.Error` renders `SQLite error: <e>`,
any other exception renders `Error: <e>`. -/
def renderError : PyError → TextContent
  | PyError.sqlite m => { type := "text", text := "SQLite error: " ++ m }
  | PyError.other m => { type := "text", text := "Error: " ++ m }

/-- The `call_tool` dispatcher.  `dbExists` models `os.path.exists(DB_PATH)`.
Returns the reply sequence and the trace of engine interactions.  Note that
`conn.close()` is reached only when the dispatch body falls through normally:
early validation returns and exception paths leave the connection open. -/
def call_tool {σ : Type} (eng : EngineModel σ) (dbExists : Bool) (name : String)
    (arguments : List (String × String)) : List TextContent × List Event :=
  if dbExists = false then
    ([{ type := "text", text := "Error: Database file not found at " ++ DB_PATH }], [])
  else
    match eng.connect with
    | Except.error e => ([renderError e], [])
    | Except.ok conn =>
      match dispatchBody eng conn name arguments with
      | (BodyOut.early reply, evs) =>
        ([{ type := "text", text := reply }], Event.connect :: evs)
      | (BodyOut.done result, evs) =>
        ([{ type := "text", text := result }], Event.connect :: (evs ++ [Event.close]))
      | (BodyOut.err e, evs) => ([renderError e], Event.connect :: evs)

/-- A concrete engine on which every statement raises
`sqlite3.Error("no such table: missing")`. -/
def errEngine : EngineModel Unit :=
  { connect := Except.ok ()
    execute := fun _ _ => Except.error (PyError.sqlite "no such table: missing") }

/-- A concrete engine on which every statement succeeds with zero rows
(e.g. a `SELECT` over an empty table), reporting one column `x`. -/
def emptyEngine : EngineModel Unit :=
  { connect := Except.ok ()
    execute := fun _ _ =>
      Except.ok ((), { rows := [], description := ["x"], rowcount := -1 }) }

/-- A concrete engine that answers `SELECT 1` with a single one-cell row, as
sqlite does on any reachable database. -/
def selectOneEngine : EngineModel Unit :=
  { connect := Except.ok ()
    execute := fun q _ =>
      if q = "SELECT 1" then
        Except.ok ((), { rows := [[PyVal.int 1]], description := ["1"], rowcount := -1 })
      else Except.error (PyError.sqlite "unrecognized statement") }

/-- A concrete stateful model of the external engine restricted to a single
table `t(x)` of integers: the connection state is the session's view of the
rows.  `INSERT INTO t(x) VALUES (1)` appends a row (rowcount 1);
`SELECT count(*) FROM t` reports the session's row count. -/
def miniEngine (durable : List Int) : EngineModel (List Int) :=
  { connect := Except.ok durable
    execute := fun q s =>
      if q = "INSERT INTO t(x) VALUES (1)" then
        Except.ok (s ++ [1], { rows := [], description := [], rowcount := 1 })
      else if q = "SELECT count(*) FROM t" then
        Except.ok (s, { rows := [[PyVal.int (Int.ofNat s.length)]],
                        description := ["count(*)"], rowcount := -1 })
      else
        Except.error (PyError.sqlite "unrecognized statement") }

/-- Replays a call's engine-event trace against the mini model to obtain the
durable (on-disk) table contents afterwards: `connect` starts a session from
the durable rows, the insert statement appends to the session, `commit`
persists the session, and closing (or leaking) the connection discards any
uncommitted session changes. -/
def miniReplay (durable : List Int) (evs : List Event) : List Int :=
  (evs.foldl
    (fun st ev =>
      match ev, st with
      | Event.connect, (d, _) => (d, d)
      | Event.execute q, (d, s) =>
        if q = "INSERT INTO t(x) VALUES (1)" then (d, s ++ [1]) else (d, s)
      | Event.commit, (_, s) => (s, s)
      | Event.close, (d, _) => (d, d))
    (durable, durable)).1

/-- A string with a non-empty left part is non-empty. -/
theorem append_ne_empty (a b : String) (ha : a ≠ "") : a ++ b ≠ "" := by
  intro h
  apply ha
  have hd := congrArg String.data h
  rw [String.data_append] at hd
  exact String.ext (List.append_eq_nil.mp hd).1

/-- `describeColumns` only ever appends to its accumulator. -/
theorem describeColumns_length (rows : List (List PyVal)) :
    ∀ (acc r : String), describeColumns acc rows = Except.ok r →
      acc.length ≤ r.length := by
  induction rows with
  | nil =>
    intro acc r h
    cases h
    exact Nat.le_refl _
  | cons col rest ih =>
    intro acc r h
    unfold describeColumns at h
    cases hr : renderColumn col with
    | error e => rw [hr] at h; cases h
    | ok line =>
      rw [hr] at h
      have := ih (acc ++ line) r h
      rw [String.length_append] at this
      omega

/-- No branch of the dispatch body records a `close` event: the only
`conn.close()` sits after the dispatch, on the fall-through path. -/
theorem close_not_in_dispatchBody {σ : Type} (eng : EngineModel σ) (conn : σ)
    (name : String) (args : List (String × String)) :
    Event.close ∉ (dispatchBody eng conn name args).2 := by
  unfold dispatchBody listTablesBody describeTableBody runQueryBody
  repeat' split
  all_goals (try simp)
  all_goals repeat' split
  all_goals simp

/-- The grid rendered for a read query is never the empty string. -/
theorem readGrid_ne_empty (columns : List String) (rows : List (List PyVal)) :
    readGrid columns rows ≠ "" := by
  unfold readGrid
  apply append_ne_empty
  apply append_ne_empty
  apply append_ne_empty
  apply append_ne_empty
  apply append_ne_empty
  decide

/-- A successful schema rendering keeps its non-empty header prefix. -/
theorem describeColumns_ok_ne_empty (t : String) (rows : List (List PyVal))
    (r : String)
    (h : describeColumns ("Schema for table '" ++ t ++ "':\n") rows = Except.ok r) :
    r ≠ "" := by
  intro hr
  subst hr
  have hl := describeColumns_length rows _ _ h
  rw [String.length_append, String.length_append] at hl
  have h18 : ("Schema for table '" : String).length = 18 := by decide
  have h3 : ("':\n" : String).length = 3 := by decide
  have h0 : ("" : String).length = 0 := by decide
  rw [h18, h3, h0] at hl
  omega

/-- Every reply string produced by the dispatch body — early validation
replies and normal results alike — is non-empty. -/
theorem dispatchBody_reply_ne_empty {σ : Type} (eng : EngineModel σ) (conn : σ)
    (name : String) (args : List (String × String)) (r : String)
    (h : (dispatchBody eng conn name args).1 = BodyOut.early r ∨
         (dispatchBody eng conn name args).1 = BodyOut.done r) : r ≠ "" := by
  unfold dispatchBody listTablesBody describeTableBody runQueryBody at h
  repeat' split at h
  all_goals (try simp at h)
  all_goals repeat' split at h
  all_goals try simp at h
  all_goals subst h
  all_goals first
    | decide
    | exact describeColumns_ok_ne_empty _ _ _ (by assumption)
    | exact readGrid_ne_empty _ _
    | ((repeat' apply append_ne_empty); decide)

/-- C6: when the configured database file does not exist, every operation —
`list_tables`, `describe_table`, `run_query`, and any unknown name — returns
the single reply `Error: Database file not found at <path>`, with an empty
engine trace: no connection is opened and no side effects occur. -/
theorem C6_db_file_missing {σ : Type} (eng : EngineModel σ) (name : String)
    (args : List (String × String)) :
    call_tool eng false name args =
      ([{ type := "text",
          text := "Error: Database file not found at " ++ DB_PATH }], []) := by
  simp [call_tool]

/-- C7 counterexample: with the database file present, `describe_table` with
an empty `table_name` does return `Error: table_name is required`, but a
database connection *is* attempted (a `connect` event occurs), contradicting
the claim's "without attempting a database connection". -/
theorem C7_counterexample :
    (call_tool selectOneEngine true "describe_table" [("table_name", "")]).1 =
      [{ type := "text", text := "Error: table_name is required" }] ∧
    Event.connect ∈
      (call_tool selectOneEngine true "describe_table" [("table_name", "")]).2 := by
  decide

/-- C7 (amended): when the database file exists and the connection opens,
`describe_table` with a missing or empty `table_name` replies exactly
`Error: table_name is required`; however the connection is opened before the
argument check (trace `[connect]`, never closed).  When the file is missing,
the file-not-found reply takes precedence. -/
theorem C7_table_name_required {σ : Type} (eng : EngineModel σ) (conn : σ)
    (args : List (String × String))
    (hconn : eng.connect = Except.ok conn)
    (harg : argMissing (List.lookup "table_name" args) = true) :
    call_tool eng true "describe_table" args =
      ([{ type := "text", text := "Error: table_name is required" }],
       [Event.connect]) := by
  simp [call_tool, dispatchBody, hconn, harg]

/-- C7 witness: the amended theorem applied to a concrete engine and an
argument bag with an empty `table_name`. -/
theorem C7_witness :
    call_tool selectOneEngine true "describe_table" [("table_name", "")] =
      ([{ type := "text", text := "Error: table_name is required" }],
       [Event.connect]) :=
  C7_table_name_required selectOneEngine () [("table_name", "")] rfl (by decide)

/-- C8: with the database file present and the connection opening, any
operation name outside {list_tables, describe_table, run_query} yields the
single successful text reply `Unknown tool: <name>` — the same reply channel
as every success — and the connection is closed. -/
theorem C8_unknown_tool {σ : Type} (eng : EngineModel σ) (conn : σ)
    (name : String) (args : List (String × String))
    (hconn : eng.connect = Except.ok conn)
    (h1 : name ≠ "list_tables") (h2 : name ≠ "describe_table")
    (h3 : name ≠ "run_query") :
    call_tool eng true name args =
      ([{ type := "text", text := "Unknown tool: " ++ name }],
       [Event.connect, Event.close]) := by
  simp [call_tool, dispatchBody, hconn, h1, h2, h3]

/-- C8 witness: the unknown-tool reply for a concrete call. -/
theorem C8_witness :
    call_tool errEngine true "drop_table" [] =
      ([{ type := "text", text := "Unknown tool: drop_table" }],
       [Event.connect, Event.close]) := by
  have h := C8_unknown_tool errEngine () "drop_table" []
    rfl (by decide) (by decide) (by decide)
  exact h.trans (by decide)

/-- C10: with the database file present and the connection opening,
`describe_table` with missing/empty `table_name` and `run_query` with
missing/empty `query` each open a connection before the argument check and
return the `Error: <param> is required` reply with the connection never
closed (trace exactly `[connect]`). -/
theorem C10_validation_leaks_connection {σ : Type} (eng : EngineModel σ)
    (conn : σ) (argsD argsQ : List (String × String))
    (hconn : eng.connect = Except.ok conn)
    (hd : argMissing (List.lookup "table_name" argsD) = true)
    (hq : argMissing (List.lookup "query" argsQ) = true) :
    (call_tool eng true "describe_table" argsD =
        ([{ type := "text", text := "Error: table_name is required" }],
         [Event.connect]) ∧
      Event.close ∉ (call_tool eng true "describe_table" argsD).2) ∧
    (call_tool eng true "run_query" argsQ =
        ([{ type := "text", text := "Error: query is required" }],
         [Event.connect]) ∧
      Event.close ∉ (call_tool eng true "run_query" argsQ).2) := by
  have hD : call_tool eng true "describe_table" argsD =
      ([{ type := "text", text := "Error: table_name is required" }],
       [Event.connect]) := by
    simp [call_tool, dispatchBody, hconn, hd]
  have hQ : call_tool eng true "run_query" argsQ =
      ([{ type := "text", text := "Error: query is required" }],
       [Event.connect]) := by
    simp [call_tool, dispatchBody, hconn, hq]
  refine ⟨⟨hD, ?_⟩, hQ, ?_⟩ <;> simp [hD, hQ]

/-- C10 witness: concrete leaking calls (empty `table_name`, absent `query`). -/
theorem C10_witness :
    (call_tool selectOneEngine true "describe_table" [("table_name", "")] =
        ([{ type := "text", text := "Error: table_name is required" }],
         [Event.connect]) ∧
      Event.close ∉
        (call_tool selectOneEngine true "describe_table" [("table_name", "")]).2) ∧
    (call_tool selectOneEngine true "run_query" [] =
        ([{ type := "text", text := "Error: query is required" }],
         [Event.connect]) ∧
      Event.close ∉ (call_tool selectOneEngine true "run_query" []).2) :=
  C10_validation_leaks_connection selectOneEngine () [("table_name", "")] []
    rfl (by decide) (by decide)

/-- C1 counterexample: the claim's exact renderings do not match the code.
A read query fetching zero rows replies
`Query executed successfully. No results returned.` — not the text
`no results returned` — and `run_query("SELECT 1")` replies with a
`Query results:` line prefixed to the grid, so the reply is not just the
header/separator/row lines. -/
theorem C1_counterexample :
    ((call_tool emptyEngine true "run_query" [("query", "SELECT x FROM t")]).1 =
        [{ type := "text",
           text := "Query executed successfully. No results returned." }] ∧
      (call_tool emptyEngine true "run_query" [("query", "SELECT x FROM t")]).1 ≠
        [{ type := "text", text := "no results returned" }]) ∧
    ((call_tool selectOneEngine true "run_query" [("query", "SELECT 1")]).1 =
        [{ type := "text", text := "Query results:\n1\n-\n1\n" }] ∧
      (call_tool selectOneEngine true "run_query" [("query", "SELECT 1")]).1 ≠
        [{ type := "text", text := "1\n-\n1\n" }] ∧
      (call_tool selectOneEngine true "run_query" [("query", "SELECT 1")]).1 ≠
        [{ type := "text", text := "1\n-\n1" }]) := by
  decide

/-- C1 (amended): for every `run_query` call whose query text, stripped and
case-folded, begins with `select` or `pragma`, the dispatcher executes the
query and renders a `Query results:` line followed by the grid (column names
joined by `" | "`, a dash separator as long as the joined header, one
newline-terminated line per row with stringified cells); zero fetched rows
instead reply `Query executed successfully. No results returned.`.  In
particular `SELECT 1` yields the grid with header `1` and one data row `1`
under the `Query results:` line. -/
theorem C1_read_query {σ : Type} (eng : EngineModel σ) (conn conn2 : σ)
    (args : List (String × String)) (q : String) (cur : CursorResult)
    (hconn : eng.connect = Except.ok conn)
    (harg : List.lookup "query" args = Option.some q) (hne : q ≠ "")
    (hread : isReadQuery q = true)
    (hexec : eng.execute q conn = Except.ok (conn2, cur)) :
    call_tool eng true "run_query" args =
      ([{ type := "text",
          text := if cur.rows.isEmpty then
              "Query executed successfully. No results returned."
            else readGrid cur.description cur.rows }],
       [Event.connect, Event.execute q, Event.close]) ∧
    (call_tool selectOneEngine true "run_query" [("query", "SELECT 1")]).1 =
      [{ type := "text", text := "Query results:\n1\n-\n1\n" }] := by
  refine ⟨?_, by decide⟩
  cases hrows : cur.rows.isEmpty <;>
    simp [call_tool, dispatchBody, runQueryBody, argMissing, hconn, harg, hne,
      hread, hexec, hrows]

/-- C1 witness: the amended theorem applied to the concrete `SELECT 1`
engine. -/
theorem C1_witness :
    (call_tool selectOneEngine true "run_query" [("query", "SELECT 1")] =
      ([{ type := "text",
          text := if ([[PyVal.int 1]] : List (List PyVal)).isEmpty then
              "Query executed successfully. No results returned."
            else readGrid ["1"] [[PyVal.int 1]] }],
       [Event.connect, Event.execute "SELECT 1", Event.close])) ∧
    (call_tool selectOneEngine true "run_query" [("query", "SELECT 1")]).1 =
      [{ type := "text", text := "Query results:\n1\n-\n1\n" }] :=
  C1_read_query selectOneEngine () () [("query", "SELECT 1")] "SELECT 1"
    { rows := [[PyVal.int 1]], description := ["1"], rowcount := -1 }
    rfl rfl (by decide) (by decide) rfl

/-- C2: for every `run_query` call not classified as read, the dispatcher
executes the statement, commits, and replies exactly
`Query executed successfully. N rows affected.` with N the engine-reported
`rowcount`; the trace shows commit before close.  On the concrete one-table
engine model, inserting a row reports `1 rows affected.`, the replayed trace
leaves the row durably committed, and a follow-up `SELECT count(*)` call
sees it. -/
theorem C2_mutation_query {σ : Type} (eng : EngineModel σ) (conn conn2 : σ)
    (args : List (String × String)) (q : String) (cur : CursorResult)
    (hconn : eng.connect = Except.ok conn)
    (harg : List.lookup "query" args = Option.some q) (hne : q ≠ "")
    (hread : isReadQuery q = false)
    (hexec : eng.execute q conn = Except.ok (conn2, cur)) :
    (call_tool eng true "run_query" args =
      ([{ type := "text",
          text := "Query executed successfully. " ++ toString cur.rowcount ++
            " rows affected." }],
       [Event.connect, Event.execute q, Event.commit, Event.close])) ∧
    (call_tool (miniEngine []) true "run_query"
        [("query", "INSERT INTO t(x) VALUES (1)")]).1 =
      [{ type := "text", text := "Query executed successfully. 1 rows affected." }] ∧
    miniReplay [] (call_tool (miniEngine []) true "run_query"
        [("query", "INSERT INTO t(x) VALUES (1)")]).2 = [1] ∧
    (call_tool (miniEngine (miniReplay [] (call_tool (miniEngine []) true "run_query"
            [("query", "INSERT INTO t(x) VALUES (1)")]).2)) true "run_query"
        [("query", "SELECT count(*) FROM t")]).1 =
      [{ type := "text", text := "Query results:\ncount(*)\n--------\n1\n" }] := by
  refine ⟨?_, by decide, by decide, by decide⟩
  simp [call_tool, dispatchBody, runQueryBody, argMissing, hconn, harg, hne,
    hread, hexec]

/-- C2 witness: the mutation theorem applied to the concrete insert. -/
theorem C2_witness :
    (call_tool (miniEngine []) true "run_query"
        [("query", "INSERT INTO t(x) VALUES (1)")] =
      ([{ type := "text",
          text := "Query executed successfully. " ++ toString (1 : Int) ++
            " rows affected." }],
       [Event.connect, Event.execute "INSERT INTO t(x) VALUES (1)",
        Event.commit, Event.close])) ∧
    (call_tool (miniEngine []) true "run_query"
        [("query", "INSERT INTO t(x) VALUES (1)")]).1 =
      [{ type := "text", text := "Query executed successfully. 1 rows affected." }] ∧
    miniReplay [] (call_tool (miniEngine []) true "run_query"
        [("query", "INSERT INTO t(x) VALUES (1)")]).2 = [1] ∧
    (call_tool (miniEngine (miniReplay [] (call_tool (miniEngine []) true "run_query"
            [("query", "INSERT INTO t(x) VALUES (1)")]).2)) true "run_query"
        [("query", "SELECT count(*) FROM t")]).1 =
      [{ type := "text", text := "Query results:\ncount(*)\n--------\n1\n" }] :=
  C2_mutation_query (miniEngine []) [] [1]
    [("query", "INSERT INTO t(x) VALUES (1)")] "INSERT INTO t(x) VALUES (1)"
    { rows := [], description := [], rowcount := 1 }
    rfl rfl (by decide) (by decide) rfl

/-- Projecting the first cell of singleton catalog rows succeeds and yields
the names in order. -/
theorem firstElems_map_singleton (names : List String) :
    firstElems (names.map (fun n => [PyVal.text n])) =
      Except.ok (names.map PyVal.text) := by
  induction names with
  | nil => rfl
  | cons n rest ih => simp [firstElems, ih, Except.map]

/-- A concrete engine whose catalog holds tables `users` then `orders`,
in that (native) order. -/
def twoTableEngine : EngineModel Unit :=
  { connect := Except.ok ()
    execute := fun q _ =>
      if q = catalogQuery then
        Except.ok ((), { rows := [[PyVal.text "users"], [PyVal.text "orders"]],
                         description := ["name"], rowcount := -1 })
      else Except.error (PyError.sqlite "unrecognized statement") }

/-- C4: for every `list_tables` call on an existing database whose catalog
reports `names` (in the engine's native order), the reply is the header line
followed by one `- <name>` line per table, names in that same order; zero
tables leave nothing after the header line and its newline. -/
theorem C4_list_tables {σ : Type} (eng : EngineModel σ) (conn conn2 : σ)
    (args : List (String × String)) (names : List String) (cur : CursorResult)
    (hconn : eng.connect = Except.ok conn)
    (hexec : eng.execute catalogQuery conn = Except.ok (conn2, cur))
    (hrows : cur.rows = names.map (fun n => [PyVal.text n])) :
    (call_tool eng true "list_tables" args =
      ([{ type := "text",
          text := "Tables in database:\n" ++
            String.intercalate "\n" (names.map (fun n => "- " ++ n)) }],
       [Event.connect, Event.execute catalogQuery, Event.close])) ∧
    (names = [] →
      call_tool eng true "list_tables" args =
        ([{ type := "text", text := "Tables in database:\n" }],
         [Event.connect, Event.execute catalogQuery, Event.close])) := by
  have hmain : call_tool eng true "list_tables" args =
      ([{ type := "text",
          text := "Tables in database:\n" ++
            String.intercalate "\n" (names.map (fun n => "- " ++ n)) }],
       [Event.connect, Event.execute catalogQuery, Event.close]) := by
    simp [call_tool, dispatchBody, listTablesBody, hconn, hexec, hrows,
      firstElems_map_singleton, pyStr, Function.comp_def]
  refine ⟨hmain, fun h => ?_⟩
  subst h
  exact hmain.trans (by decide)

/-- C4 witness: the catalog rendering for the concrete two-table engine. -/
theorem C4_witness :
    (call_tool twoTableEngine true "list_tables" [] =
      ([{ type := "text",
          text := "Tables in database:\n" ++
            String.intercalate "\n"
              ((["users", "orders"] : List String).map (fun n => "- " ++ n)) }],
       [Event.connect, Event.execute catalogQuery, Event.close])) ∧
    ((["users", "orders"] : List String) = [] →
      call_tool twoTableEngine true "list_tables" [] =
        ([{ type := "text", text := "Tables in database:\n" }],
         [Event.connect, Event.execute catalogQuery, Event.close])) :=
  C4_list_tables twoTableEngine () () [] ["users", "orders"]
    { rows := [[PyVal.text "users"], [PyVal.text "orders"]],
      description := ["name"], rowcount := -1 }
    rfl rfl rfl

/-- One column as reflected by `PRAGMA table_info`: position, name, declared
type, not-null flag, default value, primary-key flag. -/
structure ColumnDescriptor where
  cid : PyVal
  colName : PyVal
  colType : PyVal
  notNull : PyVal
  dflt : PyVal
  pk : PyVal
deriving DecidableEq, Repr

/-- The six-field row `PRAGMA table_info` returns for a column. -/
def pragmaRow (c : ColumnDescriptor) : List PyVal :=
  [c.cid, c.colName, c.colType, c.notNull, c.dflt, c.pk]

/-- The rendered line for one column: `- <name>: <type>` with the
independently combinable suffixes ` (PRIMARY KEY)`, ` NOT NULL`,
` DEFAULT <value>`, in that order. -/
def columnLine (c : ColumnDescriptor) : String :=
  "- " ++ pyStr c.colName ++ ": " ++ pyStr c.colType ++
    (if pyTruthy c.pk then " (PRIMARY KEY)" else "") ++
    (if pyTruthy c.notNull then " NOT NULL" else "") ++
    (if c.dflt = PyVal.null then "" else " DEFAULT " ++ pyStr c.dflt)

/-- Concatenation of a list of (newline-terminated) lines. -/
def concatLines : List String → String
  | [] => ""
  | l :: ls => l ++ concatLines ls

/-- The loop body renders exactly the suffix-combinable column line. -/
theorem renderColumn_pragmaRow (c : ColumnDescriptor) :
    renderColumn (pragmaRow c) = Except.ok (columnLine c ++ "\n") := by
  simp only [renderColumn, pragmaRow, columnLine]
  split_ifs <;> simp only [String.append_empty, ← String.append_assoc]

/-- The accumulation loop over well-formed pragma rows produces the
concatenation of the column lines, one per column, in order. -/
theorem describeColumns_concat (cols : List ColumnDescriptor) :
    ∀ acc : String, describeColumns acc (cols.map pragmaRow) =
      Except.ok (acc ++ concatLines (cols.map (fun c => columnLine c ++ "\n"))) := by
  induction cols with
  | nil => intro acc; simp [describeColumns, concatLines, String.append_empty]
  | cons c rest ih =>
    intro acc
    simp [describeColumns, renderColumn_pragmaRow, ih, concatLines,
      String.append_assoc]

/-- C3: for a `describe_table` call with non-empty table name on an existing
database, zero reflected columns reply exactly `Table '<T>' not found`;
otherwise the reply is the schema header plus exactly one line per column, in
declaration order, each `- <name>: <type>` with the conditional suffixes
` (PRIMARY KEY)`, ` NOT NULL`, ` DEFAULT <value>` applied in that order. -/
theorem C3_describe_table {σ : Type} (eng : EngineModel σ) (conn conn2 : σ)
    (args : List (String × String)) (t : String)
    (cols : List ColumnDescriptor) (cur : CursorResult)
    (hconn : eng.connect = Except.ok conn)
    (harg : List.lookup "table_name" args = Option.some t) (hne : t ≠ "")
    (hexec : eng.execute ("PRAGMA table_info(" ++ t ++ ")") conn =
      Except.ok (conn2, cur))
    (hrows : cur.rows = cols.map pragmaRow) :
    call_tool eng true "describe_table" args =
      ([{ type := "text",
          text := if cols.isEmpty then "Table '" ++ t ++ "' not found"
            else "Schema for table '" ++ t ++ "':\n" ++
              concatLines (cols.map (fun c => columnLine c ++ "\n")) }],
       [Event.connect, Event.execute ("PRAGMA table_info(" ++ t ++ ")"),
        Event.close]) := by
  cases cols with
  | nil =>
    simp [call_tool, dispatchBody, describeTableBody, argMissing, hconn, harg,
      hne, hexec, hrows]
  | cons c rest =>
    have hdc := describeColumns_concat (c :: rest)
      ("Schema for table '" ++ t ++ "':\n")
    simp only [List.map_cons] at hdc
    simp only [String.append_assoc] at hdc hexec
    simp [call_tool, dispatchBody, describeTableBody, argMissing, hconn, harg,
      hne, hexec, hrows, hdc, String.append_assoc]

/-- A concrete engine reflecting a table `users` with an INTEGER primary key
`id` (not null) and a TEXT column `email` with a default. -/
def usersEngine : EngineModel Unit :=
  { connect := Except.ok ()
    execute := fun q _ =>
      if q = "PRAGMA table_info(users)" then
        Except.ok ((),
          { rows :=
              [[PyVal.int 0, PyVal.text "id", PyVal.text "INTEGER",
                PyVal.int 1, PyVal.null, PyVal.int 1],
               [PyVal.int 1, PyVal.text "email", PyVal.text "TEXT",
                PyVal.int 0, PyVal.text "'x'", PyVal.int 0]],
            description := ["cid", "name", "type", "notnull", "dflt_value", "pk"],
            rowcount := -1 })
      else Except.error (PyError.sqlite "unrecognized statement") }

/-- C3 witness: the schema rendering for the concrete `users` table. -/
theorem C3_witness :
    call_tool usersEngine true "describe_table" [("table_name", "users")] =
      ([{ type := "text",
          text := if ([⟨PyVal.int 0, PyVal.text "id", PyVal.text "INTEGER",
                        PyVal.int 1, PyVal.null, PyVal.int 1⟩,
                      ⟨PyVal.int 1, PyVal.text "email", PyVal.text "TEXT",
                        PyVal.int 0, PyVal.text "'x'", PyVal.int 0⟩] :
                List ColumnDescriptor).isEmpty then
              "Table '" ++ "users" ++ "' not found"
            else "Schema for table '" ++ "users" ++ "':\n" ++
              concatLines (([⟨PyVal.int 0, PyVal.text "id", PyVal.text "INTEGER",
                              PyVal.int 1, PyVal.null, PyVal.int 1⟩,
                            ⟨PyVal.int 1, PyVal.text "email", PyVal.text "TEXT",
                              PyVal.int 0, PyVal.text "'x'", PyVal.int 0⟩] :
                  List ColumnDescriptor).map (fun c => columnLine c ++ "\n")) }],
       [Event.connect, Event.execute ("PRAGMA table_info(" ++ "users" ++ ")"),
        Event.close]) :=
  C3_describe_table usersEngine () () [("table_name", "users")] "users"
    [⟨PyVal.int 0, PyVal.text "id", PyVal.text "INTEGER", PyVal.int 1,
      PyVal.null, PyVal.int 1⟩,
     ⟨PyVal.int 1, PyVal.text "email", PyVal.text "TEXT", PyVal.int 0,
      PyVal.text "'x'", PyVal.int 0⟩]
    { rows :=
        [[PyVal.int 0, PyVal.text "id", PyVal.text "INTEGER", PyVal.int 1,
          PyVal.null, PyVal.int 1],
         [PyVal.int 1, PyVal.text "email", PyVal.text "TEXT", PyVal.int 0,
          PyVal.text "'x'", PyVal.int 0]],
      description := ["cid", "name", "type", "notnull", "dflt_value", "pk"],
      rowcount := -1 }
    rfl rfl (by decide) rfl rfl

/-- C5 counterexample: on an engine-reported error (`sqlite3.Error` raised by
`execute`), the call returns the error reply with the connection opened but
never closed — no `close` event in the trace — contradicting "closed on every
exit path". -/
theorem C5_counterexample :
    (call_tool errEngine true "list_tables" []).1 =
      [{ type := "text", text := "SQLite error: no such table: missing" }] ∧
    (call_tool errEngine true "list_tables" []).2 =
      [Event.connect, Event.execute catalogQuery] ∧
    Event.close ∉ (call_tool errEngine true "list_tables" []).2 := by
  decide

/-- C5 (amended): once a connection is opened, it is closed before control
returns exactly on the calls whose dispatch body runs to completion (normal
results and unknown-tool replies); on argument-validation early returns and
on engine-error or unexpected-failure exits the connection is left open.
When `close` happens, it is the final engine interaction. -/
theorem C5_close_on_completion_only {σ : Type} (eng : EngineModel σ) (conn : σ)
    (name : String) (args : List (String × String))
    (hconn : eng.connect = Except.ok conn) :
    (Event.close ∈ (call_tool eng true name args).2 ↔
      ∃ r, (dispatchBody eng conn name args).1 = BodyOut.done r) ∧
    (Event.close ∈ (call_tool eng true name args).2 →
      ∃ evs, (call_tool eng true name args).2 = evs ++ [Event.close]) := by
  have hnc := close_not_in_dispatchBody eng conn name args
  rcases hb : dispatchBody eng conn name args with ⟨out, evs⟩
  rw [hb] at hnc
  cases out with
  | early r =>
    have hct : call_tool eng true name args =
        ([{ type := "text", text := r }], Event.connect :: evs) := by
      simp [call_tool, hconn, hb]
    rw [hct]
    simp
    exact ⟨hnc, fun h => absurd h hnc⟩
  | done r =>
    have hct : call_tool eng true name args =
        ([{ type := "text", text := r }],
         Event.connect :: (evs ++ [Event.close])) := by
      simp [call_tool, hconn, hb]
    rw [hct]
    constructor
    · simp
    · intro _
      exact ⟨Event.connect :: evs, by simp⟩
  | err e =>
    have hct : call_tool eng true name args =
        ([renderError e], Event.connect :: evs) := by
      simp [call_tool, hconn, hb]
    rw [hct]
    simp
    exact ⟨hnc, fun h => absurd h hnc⟩

/-- C5 witness: the amended characterization at a concrete erroring call. -/
theorem C5_witness :
    (Event.close ∈ (call_tool errEngine true "list_tables" []).2 ↔
      ∃ r, (dispatchBody errEngine () "list_tables" []).1 = BodyOut.done r) ∧
    (Event.close ∈ (call_tool errEngine true "list_tables" []).2 →
      ∃ evs, (call_tool errEngine true "list_tables" []).2 =
        evs ++ [Event.close]) :=
  C5_close_on_completion_only errEngine () "list_tables" [] rfl

/-- C9: every call, on every path — database-file missing, connect failure,
validation failure, engine error, unexpected error, or success — returns
exactly one text segment, and that segment's body is non-empty. -/
theorem C9_single_nonempty_segment {σ : Type} (eng : EngineModel σ)
    (dbExists : Bool) (name : String) (args : List (String × String)) :
    (call_tool eng dbExists name args).1.length = 1 ∧
    ∀ tc ∈ (call_tool eng dbExists name args).1, tc.text ≠ "" := by
  cases dbExists with
  | false =>
    simp [call_tool]
    exact append_ne_empty _ _ (by decide)
  | true =>
    cases hc : eng.connect with
    | error e =>
      have hct : call_tool eng true name args = ([renderError e], []) := by
        simp [call_tool, hc]
      rw [hct]
      cases e <;> simp [renderError] <;> exact append_ne_empty _ _ (by decide)
    | ok conn =>
      rcases hb : dispatchBody eng conn name args with ⟨out, evs⟩
      cases out with
      | early r =>
        have hr := dispatchBody_reply_ne_empty eng conn name args r
          (Or.inl (by rw [hb]))
        have hct : call_tool eng true name args =
            ([{ type := "text", text := r }], Event.connect :: evs) := by
          simp [call_tool, hc, hb]
        rw [hct]
        simpa using hr
      | done r =>
        have hr := dispatchBody_reply_ne_empty eng conn name args r
          (Or.inr (by rw [hb]))
        have hct : call_tool eng true name args =
            ([{ type := "text", text := r }],
             Event.connect :: (evs ++ [Event.close])) := by
          simp [call_tool, hc, hb]
        rw [hct]
        simpa using hr
      | err e =>
        have hct : call_tool eng true name args =
            ([renderError e], Event.connect :: evs) := by
          simp [call_tool, hc, hb]
        rw [hct]
        cases e <;> simp [renderError] <;> exact append_ne_empty _ _ (by decide)
